import Mathlib

/-!
Verification of the phpxdebug trace-file parser (src/src/lib.rs) against its
natural-language specification.

The development shallowly embeds the core of the parser:

* the seven line patterns of `LineRegex::regex_str` are embedded as executable
  backtracking matchers over `List Char`, written in continuation-passing style
  so that they implement the leftmost-first ("preference order", Perl-style)
  match-and-capture semantics of the `regex` crate, with greedy quantifiers
  preferring the longest repetition;
* `RegexSet::matches(...).first()` is embedded as `classify`, which returns the
  first pattern index (in the declaration order of `RE_SET`) that matches;
* the record decoders (`XtraceVersionRecord::new`, `XtraceFmtRecord::new`,
  `XtraceStartTimeRecord::new`, `XtraceEntryRecord::new`,
  `XtraceExitRecord::new`) are embedded as `Option`-valued functions, a `none`
  standing for the `unwrap`/`expect` aborts of the source;
* `process_line` and the read loop of `parse_xtrace_file` are embedded as
  `process_line` and `parse_lines` over an explicit state `PState`; aborts of
  the source surface as `Except.error`, and `eprintln!` diagnostics are
  returned alongside the new state.

Machine integers are modelled as `Nat` with explicit bounds: `parseU32`
mirrors `str::parse::<u32>`, failing exactly on non-digit input and on values
of at least `2 ^ 32`.  The `f64` field `time_idx` is kept as its captured
decimal text: its capture always has the shape `\d+\.\d+`, on which
`str::parse::<f64>` never fails, and no claim inspects its numeric value.
-/

/-! ## Backtracking matchers in continuation-passing style

Each combinator takes the remaining input and a continuation; alternatives are
tried in preference order and the first success wins, which is exactly the
capture semantics documented for the Rust `regex` crate (leftmost-first,
greedy quantifiers preferring more repetitions).  All quantified
subexpressions of the seven patterns are single-character classes, so the
combinators only need character-class repetition. -/

/-- Match one character satisfying `p` and pass it to the continuation. -/
def chK (p : Char → Bool) (s : List Char) (k : Char → List Char → Option β) : Option β :=
  match s with
  | [] => none
  | x :: xs => if p x then k x xs else none

/-- Match a literal character sequence, then continue. -/
def litK : List Char → List Char → (List Char → Option β) → Option β
  | [], s, k => k s
  | c :: cs, s, k =>
    match s with
    | [] => none
    | x :: xs => if x = c then litK cs xs k else none

/-- Greedy `p*` over a character class: prefer consuming more characters,
backtracking one character at a time.  The continuation receives the consumed
characters (the capture) and the rest. -/
def starCapK (p : Char → Bool) : List Char → (List Char → List Char → Option β) → Option β
  | [], k => k [] []
  | x :: xs, k =>
    if p x then
      match starCapK p xs (fun cap rest => k (x :: cap) rest) with
      | some r => some r
      | none => k [] (x :: xs)
    else k [] (x :: xs)

/-- Greedy `p+` over a character class. -/
def plusCapK (p : Char → Bool) (s : List Char) (k : List Char → List Char → Option β) : Option β :=
  match s with
  | [] => none
  | x :: xs =>
    if p x then starCapK p xs (fun cap rest => k (x :: cap) rest) else none

/-- Exactly `n` characters of class `p` (the `\d{n}` bounded repetition). -/
def repCapK : Nat → (Char → Bool) → List Char → (List Char → List Char → Option β) → Option β
  | 0, _, s, k => k [] s
  | n + 1, p, s, k =>
    match s with
    | [] => none
    | x :: xs => if p x then repCapK n p xs (fun cap rest => k (x :: cap) rest) else none

/-- Greedy `p?` for a single character: prefer consuming it. -/
def optCharK (p : Char → Bool) (s : List Char) (k : List Char → Option β) : Option β :=
  match s with
  | [] => k []
  | x :: xs =>
    if p x then
      match k xs with
      | some r => some r
      | none => k (x :: xs)
    else k (x :: xs)

/-- Character class `\t` (the field separator of the xtrace format). -/
def isTab (c : Char) : Bool := c = '\t'

/-- Character class `.` of the `regex` crate: any character except newline. -/
def dotC (c : Char) : Bool := c != '\n'

/-- Character class `[01]` (the `fn_type` field of a function-entry line). -/
def fnTypeC (c : Char) : Bool := c = '0' || c = '1'

/-- Character class `\s` (ASCII fragment of the Unicode class used by the
`regex` crate; all inputs of interest are ASCII). -/
def isSpaceRE (c : Char) : Bool :=
  c = ' ' || c = '\t' || c = '\n' || c = '\r' || c = '\x0b' || c = '\x0c'

/-- The `\d+\.\d+` shape of the `time_idx` fields; the capture is the full
matched text. -/
def numCapK (s : List Char) (k : List Char → List Char → Option β) : Option β :=
  plusCapK Char.isDigit s (fun d1 s1 =>
    chK (fun c => c = '.') s1 (fun _ s2 =>
      plusCapK Char.isDigit s2 (fun d2 s3 => k (d1 ++ '.' :: d2) s3)))

/-! ## The seven line patterns of `LineRegex::regex_str` -/

/-- Pattern `Version:\s+(?P<version>\d+\.\d+\.\d+).*`, anchored at the given
position; returns the `version` capture.  The trailing `.*` always matches
and is dropped. -/
def versionAt (s : List Char) : Option String :=
  litK "Version:".toList s (fun s1 =>
    plusCapK isSpaceRE s1 (fun _ s2 =>
      plusCapK Char.isDigit s2 (fun d1 s3 =>
        chK (fun c => c = '.') s3 (fun _ s4 =>
          plusCapK Char.isDigit s4 (fun d2 s5 =>
            chK (fun c => c = '.') s5 (fun _ s6 =>
              plusCapK Char.isDigit s6 (fun d3 _ =>
                some (String.mk (d1 ++ '.' :: d2 ++ '.' :: d3)))))))))

/-- Unanchored search for the `Version` pattern (it carries no `^`): try each
start position from the left, as the leftmost-match semantics prescribes. -/
def searchVersion : List Char → Option String
  | [] => none
  | x :: xs =>
    match versionAt (x :: xs) with
    | some r => some r
    | none => searchVersion xs

/-- Captures of `LineRegex::Version` on a whole line. -/
def versionCaptures (line : String) : Option String :=
  searchVersion line.toList

/-- Captures of `LineRegex::Format`: `^File format: (?P<format>\d+)`. -/
def formatCaptures (line : String) : Option String :=
  litK "File format: ".toList line.toList (fun s1 =>
    plusCapK Char.isDigit s1 (fun d _ => some (String.mk d)))

/-- The timestamp shape `\d{4}-\d{2}-\d{2} \d{2}:\d{2}:\d{2}.\d+` shared by
the `Start` and `End` patterns (the `.` before the fraction is the any-char
class, reproduced as such). -/
def tsCapK (s : List Char) (k : List Char → List Char → Option β) : Option β :=
  repCapK 4 Char.isDigit s (fun a s1 =>
  chK (fun c => c = '-') s1 (fun _ s2 =>
  repCapK 2 Char.isDigit s2 (fun b s3 =>
  chK (fun c => c = '-') s3 (fun _ s4 =>
  repCapK 2 Char.isDigit s4 (fun c3 s5 =>
  chK (fun c => c = ' ') s5 (fun _ s6 =>
  repCapK 2 Char.isDigit s6 (fun d s7 =>
  chK (fun c => c = ':') s7 (fun _ s8 =>
  repCapK 2 Char.isDigit s8 (fun e s9 =>
  chK (fun c => c = ':') s9 (fun _ s10 =>
  repCapK 2 Char.isDigit s10 (fun f s11 =>
  chK dotC s11 (fun dot s12 =>
  plusCapK Char.isDigit s12 (fun g s13 =>
    k (a ++ '-' :: b ++ '-' :: c3 ++ ' ' :: d ++ ':' :: e ++ ':' :: f ++ dot :: g) s13)))))))))))))

/-- Captures of `LineRegex::Start`:
`^TRACE START \[(?P<start>...)\]`. -/
def startCaptures (line : String) : Option String :=
  litK "TRACE START [".toList line.toList (fun s1 =>
    tsCapK s1 (fun ts s2 =>
      chK (fun c => c = ']') s2 (fun _ _ => some (String.mk ts))))

/-- Match of `LineRegex::End`: `^TRACE END\s+\[(?P<end>...)\]`. -/
def endMatch (line : String) : Bool :=
  ((litK "TRACE END".toList line.toList (fun s1 =>
    plusCapK isSpaceRE s1 (fun _ s2 =>
      chK (fun c => c = '[') s2 (fun _ s3 =>
        tsCapK s3 (fun _ s4 =>
          chK (fun c => c = ']') s4 (fun _ _ => some ())))))) : Option Unit) |>.isSome

/-- Match of `LineRegex::Penultimate`:
`^\s+(?P<time_idx>\d+\.\d+)\t(?P<mem_usage>\d+)`. -/
def penultimateMatch (line : String) : Bool :=
  (plusCapK isSpaceRE line.toList (fun _ s1 =>
    numCapK s1 (fun _ s2 =>
      chK isTab s2 (fun _ s3 =>
        plusCapK Char.isDigit s3 (fun _ _ => some ())))) : Option Unit) |>.isSome

/-- Raw text of all named captures of `LineRegex::FunctionEntry`. -/
structure EntryCaps where
  level : String
  fn_num : String
  time_idx : String
  mem_usage : String
  fn_name : String
  fn_type : String
  inc_file_name : String
  file_name : String
  line_num : String
  arg_num : String
  args : String
deriving DecidableEq, Repr

/-- Raw text of all named captures of `LineRegex::FunctionExit`. -/
structure ExitCaps where
  level : String
  fn_num : String
  time_idx : String
  mem_usage : String
deriving DecidableEq, Repr

/-- Captures of `LineRegex::FunctionEntry`:
`^(?P<level>\d+)\t(?P<fn_num>\d+)\t(?P<rec_type>0)\t(?P<time_idx>\d+\.\d+)\t(?P<mem_usage>\d+)\t(?P<fn_name>.*)\t(?P<fn_type>[01])\t(?P<inc_file_name>.*)\t(?P<file_name>.*)\t(?P<line_num>\d+)\t(?P<arg_num>\d+)\t?(?P<args>.*)`. -/
def entryCaptures (line : String) : Option EntryCaps :=
  plusCapK Char.isDigit line.toList (fun lvl s1 =>
  chK isTab s1 (fun _ s2 =>
  plusCapK Char.isDigit s2 (fun fnum s3 =>
  chK isTab s3 (fun _ s4 =>
  chK (fun c => c = '0') s4 (fun _ s5 =>
  chK isTab s5 (fun _ s6 =>
  numCapK s6 (fun tidx s7 =>
  chK isTab s7 (fun _ s8 =>
  plusCapK Char.isDigit s8 (fun mem s9 =>
  chK isTab s9 (fun _ s10 =>
  starCapK dotC s10 (fun name s11 =>
  chK isTab s11 (fun _ s12 =>
  chK fnTypeC s12 (fun ty s13 =>
  chK isTab s13 (fun _ s14 =>
  starCapK dotC s14 (fun inc s15 =>
  chK isTab s15 (fun _ s16 =>
  starCapK dotC s16 (fun file s17 =>
  chK isTab s17 (fun _ s18 =>
  plusCapK Char.isDigit s18 (fun ln s19 =>
  chK isTab s19 (fun _ s20 =>
  plusCapK Char.isDigit s20 (fun an s21 =>
  optCharK isTab s21 (fun s22 =>
  starCapK dotC s22 (fun args _ =>
    some { level := String.mk lvl, fn_num := String.mk fnum,
           time_idx := String.mk tidx, mem_usage := String.mk mem,
           fn_name := String.mk name, fn_type := String.mk [ty],
           inc_file_name := String.mk inc, file_name := String.mk file,
           line_num := String.mk ln, arg_num := String.mk an,
           args := String.mk args })))))))))))))))))))))))

/-- Captures of `LineRegex::FunctionExit`:
`^(?P<level>\d+)\t(?P<fn_num>\d+)\t(?P<rec_type>1)\t(?P<time_idx>\d+\.\d+)\t(?P<mem_usage>\d+).*`. -/
def exitCaptures (line : String) : Option ExitCaps :=
  plusCapK Char.isDigit line.toList (fun lvl s1 =>
  chK isTab s1 (fun _ s2 =>
  plusCapK Char.isDigit s2 (fun fnum s3 =>
  chK isTab s3 (fun _ s4 =>
  chK (fun c => c = '1') s4 (fun _ s5 =>
  chK isTab s5 (fun _ s6 =>
  numCapK s6 (fun tidx s7 =>
  chK isTab s7 (fun _ s8 =>
  plusCapK Char.isDigit s8 (fun mem _ =>
    some { level := String.mk lvl, fn_num := String.mk fnum,
           time_idx := String.mk tidx, mem_usage := String.mk mem })))))))))

/-- Match result of the pattern with index `i` in the `RE_SET` declaration
order: Version, Format, Start, FunctionEntry, FunctionExit, Penultimate,
End. -/
def lineMatches : Nat → String → Bool
  | 0, s => (versionCaptures s).isSome
  | 1, s => (formatCaptures s).isSome
  | 2, s => (startCaptures s).isSome
  | 3, s => (entryCaptures s).isSome
  | 4, s => (exitCaptures s).isSome
  | 5, s => penultimateMatch s
  | 6, s => endMatch s
  | _, _ => false

/-- Embedding of `RE_SET.matches(line).first()`: the first pattern index (in
declaration order) whose pattern matches the line, `none` when no pattern
matches. -/
def classify (line : String) : Option Nat :=
  if lineMatches 0 line then some 0
  else if lineMatches 1 line then some 1
  else if lineMatches 2 line then some 2
  else if lineMatches 3 line then some 3
  else if lineMatches 4 line then some 4
  else if lineMatches 5 line then some 5
  else if lineMatches 6 line then some 6
  else none

/-! ## Typed records and field conversion (src/src/lib.rs lines 22-243) -/

/-- Value of a digit string, most significant digit first. -/
def digitsToNat (l : List Char) : Nat :=
  l.foldl (fun a c => a * 10 + (c.toNat - 48)) 0

/-- Embedding of `str::parse::<u32>` on regex captures: the captures at hand
are `\d+` digit runs, on which the parse fails exactly on overflow of the
32-bit range. -/
def parseU32 (s : String) : Option Nat :=
  if s.toList ≠ [] ∧ s.toList.all Char.isDigit = true ∧ digitsToNat s.toList < 2 ^ 32
  then some (digitsToNat s.toList) else none

/-- Embedding of `str::parse::<u8>` (used for the `fn_type` field). -/
def parseU8 (s : String) : Option Nat :=
  if s.toList ≠ [] ∧ s.toList.all Char.isDigit = true ∧ digitsToNat s.toList < 2 ^ 8
  then some (digitsToNat s.toList) else none

/-- Structure `XtraceVersionRecord` (the constant `rec_type` tag is omitted). -/
structure XtraceVersionRecord where
  version : String
deriving DecidableEq, Repr

/-- Structure `XtraceFmtRecord`; `format` is a `u32` in the source. -/
structure XtraceFmtRecord where
  format : Nat
deriving DecidableEq, Repr

/-- Structure `XtraceStartTimeRecord`. -/
structure XtraceStartTimeRecord where
  start_time : String
deriving DecidableEq, Repr

/-- Structure `XtraceEntryRecord`; the `u32` fields are `Nat`s below `2 ^ 32`,
`fn_type` is the `u8` value of its one-character capture, and the `f64`
field `time_idx` is kept as its captured text (see the header comment). -/
structure XtraceEntryRecord where
  level : Nat
  fn_num : Nat
  time_idx : String
  mem_usage : Nat
  fn_name : String
  fn_type : Nat
  inc_file_name : String
  file_name : String
  line_num : Nat
  arg_num : Nat
  args : String
deriving DecidableEq, Repr

/-- Structure `XtraceExitRecord`. -/
structure XtraceExitRecord where
  level : Nat
  fn_num : Nat
  time_idx : String
  mem_usage : Nat
deriving DecidableEq, Repr

/-- Structure `XtraceFnRecord`: a completed call. -/
structure XtraceFnRecord where
  fn_num : Nat
  entry_record : Option XtraceEntryRecord
  exit_record : Option XtraceExitRecord
deriving DecidableEq, Repr

/-- Structure `XtraceFileRecord` (the caller-supplied `uuid` identifier is dropped: it
is never read by the core). -/
structure XtraceFileRecord where
  start : Option XtraceStartTimeRecord
  format : Option XtraceFmtRecord
  version : Option XtraceVersionRecord
  fn_records : List XtraceFnRecord
deriving DecidableEq, Repr

/-- Field conversion of `XtraceEntryRecord::new` after a successful pattern
match; `none` stands for a failed `unwrap` of a numeric conversion. -/
def decodeEntryCaps (c : EntryCaps) : Option XtraceEntryRecord :=
  match parseU32 c.level, parseU32 c.fn_num, parseU32 c.mem_usage,
        parseU8 c.fn_type, parseU32 c.line_num, parseU32 c.arg_num with
  | some level, some fn_num, some mem_usage, some fn_type, some line_num, some arg_num =>
    some { level, fn_num, time_idx := c.time_idx, mem_usage,
           fn_name := c.fn_name, fn_type, inc_file_name := c.inc_file_name,
           file_name := c.file_name, line_num, arg_num, args := c.args }
  | _, _, _, _, _, _ => none

/-- Decoder `XtraceEntryRecord::new`: match the entry pattern, then convert fields. -/
def entryDecode (line : String) : Option XtraceEntryRecord :=
  (entryCaptures line).bind decodeEntryCaps

/-- Field conversion of `XtraceExitRecord::new`. -/
def decodeExitCaps (c : ExitCaps) : Option XtraceExitRecord :=
  match parseU32 c.level, parseU32 c.fn_num, parseU32 c.mem_usage with
  | some level, some fn_num, some mem_usage =>
    some { level, fn_num, time_idx := c.time_idx, mem_usage }
  | _, _, _ => none

/-- Decoder `XtraceExitRecord::new`. -/
def exitDecode (line : String) : Option XtraceExitRecord :=
  (exitCaptures line).bind decodeExitCaps

/-! ## Correlator state and `process_line` (src/src/lib.rs lines 277-353) -/

/-- The pending-entry cache `HashMap<u32, XtraceEntryRecord>`, embedded as an
association list whose keys stay distinct: `cacheInsert` overwrites, as
`HashMap::insert` does. -/
def cacheInsert (k : Nat) (v : XtraceEntryRecord) (c : List (Nat × XtraceEntryRecord)) :
    List (Nat × XtraceEntryRecord) :=
  (k, v) :: c.filter (fun p => p.1 != k)

/-- Lookup `HashMap::get`. -/
def cacheLookup (c : List (Nat × XtraceEntryRecord)) (k : Nat) : Option XtraceEntryRecord :=
  (c.find? (fun p => p.1 == k)).map (fun p => p.2)

/-- The mutable state threaded through `process_line`: the growing
`XtraceFileRecord` and the pending-entry cache. -/
structure PState where
  run : XtraceFileRecord
  cache : List (Nat × XtraceEntryRecord)
deriving DecidableEq, Repr

/-- The `eprintln!` diagnostic for an unclassifiable line. -/
def noMatchMsg (line : String) : String := "No matches for line: " ++ line

/-- Constant `SUPPORTED_FILE_FORMATS`: the string-compared supported set. -/
def SUPPORTED_FILE_FORMATS : List String := ["4"]

/-- Dispatch of `process_line` on the first matching pattern index.  Branch
by branch this is the `match idx` of the source; `Except.error` stands for
the aborts (`unwrap`/`expect` failures and the unsupported-format abort). -/
def process_idx (st : PState) (line : String) (idx : Nat) :
    Except String (PState × List String) :=
  if idx = 0 then
    match versionCaptures line with
    | some v => .ok ({ st with run := { st.run with version := some { version := v } } }, [])
    | none => .error "version number not found"
  else if idx = 1 then
    match formatCaptures line with
    | some f =>
      if SUPPORTED_FILE_FORMATS.contains f then
        match parseU32 f with
        | some n => .ok ({ st with run := { st.run with format := some { format := n } } }, [])
        | none => .error "Unable to parse format number into an integer"
      else .error ("Unsupported version: " ++ f)
    | none => .error "version number not found"
  else if idx = 2 then
    match startCaptures line with
    | some _ =>
      .ok ({ st with run := { st.run with
               start := some { start_time := "Sat Dec  3 18:01:30 PST 2022" } } }, [])
    | none => .error "oops"
  else if idx = 3 then
    match entryDecode line with
    | some e => .ok ({ st with cache := cacheInsert e.fn_num e st.cache }, [])
    | none => .error "could not convert an entry field"
  else if idx = 4 then
    match exitDecode line with
    | some x =>
      match cacheLookup st.cache x.fn_num with
      | some e =>
        .ok ({ st with run := { st.run with
                 fn_records := st.run.fn_records ++
                   [{ fn_num := x.fn_num, entry_record := some e, exit_record := some x }] } }, [])
      | none => .ok (st, [])
    | none => .error "could not convert an exit field"
  else if idx = 5 then .ok (st, [])
  else if idx = 6 then .ok (st, [])
  else .error "todo"

/-- Function `process_line` of the source: classify, then dispatch; an unclassifiable line is
reported and skipped. -/
def process_line (st : PState) (line : String) : Except String (PState × List String) :=
  match classify line with
  | none => .ok (st, [noMatchMsg line])
  | some idx => process_idx st line idx

/-- The read loop of `parse_xtrace_file`, over an already-split line
sequence: fold `process_line` over the lines, collecting diagnostics; an
abort of any line aborts the whole parse. -/
def parse_lines : PState → List String → Except String (PState × List String)
  | st, [] => .ok (st, [])
  | st, l :: ls =>
    match process_line st l with
    | .error e => .error e
    | .ok (st1, d1) =>
      match parse_lines st1 ls with
      | .error e => .error e
      | .ok (st2, d2) => .ok (st2, d1 ++ d2)

/-- The empty `XtraceFileRecord` built at the top of `parse_xtrace_file`. -/
def initRun : XtraceFileRecord :=
  { start := none, format := none, version := none, fn_records := [] }

/-- Initial parse state: empty file record, empty cache. -/
def initState : PState := { run := initRun, cache := [] }

/-- Function `parse_xtrace_file` on an in-memory line sequence: the resulting
`XtraceFileRecord`, or the abort message. -/
def parse_xtrace_file (lines : List String) : Except String XtraceFileRecord :=
  (parse_lines initState lines).map (fun p => p.1.run)


/-! ## Step lemmas about `process_line` and `parse_lines` -/

/-- An unclassifiable line is reported and skipped: the state is returned
unchanged together with the diagnostic. -/
theorem process_line_of_classify_none (st : PState) (s : String)
    (h : classify s = none) : process_line st s = .ok (st, [noMatchMsg s]) := by
  simp [process_line, h]

/-- A function-entry line stores its decoded record in the pending cache,
keyed by `fn_num`, and emits nothing. -/
theorem process_line_entry (st : PState) (line : String) (e : XtraceEntryRecord)
    (hc : classify line = some 3) (hd : entryDecode line = some e) :
    process_line st line = .ok ({ st with cache := cacheInsert e.fn_num e st.cache }, []) := by
  simp [process_line, hc, process_idx, hd]

/-- A function-exit line whose identifier is pending appends the completed
call record at the end of the sequence; the cache is left untouched. -/
theorem process_line_exit_found (st : PState) (line : String)
    (x : XtraceExitRecord) (e : XtraceEntryRecord)
    (hc : classify line = some 4) (hd : exitDecode line = some x)
    (hl : cacheLookup st.cache x.fn_num = some e) :
    process_line st line =
      .ok ({ st with run := { st.run with fn_records := st.run.fn_records ++
               [{ fn_num := x.fn_num, entry_record := some e, exit_record := some x }] } }, []) := by
  simp [process_line, hc, process_idx, hd, hl]

/-- A function-exit line with no pending entry is silently dropped. -/
theorem process_line_exit_missing (st : PState) (line : String) (x : XtraceExitRecord)
    (hc : classify line = some 4) (hd : exitDecode line = some x)
    (hl : cacheLookup st.cache x.fn_num = none) :
    process_line st line = .ok (st, []) := by
  simp [process_line, hc, process_idx, hd, hl]

/-- Folding `parse_lines` splits over list concatenation. -/
theorem parse_lines_append (a b : List String) : ∀ st : PState,
    parse_lines st (a ++ b) =
      match parse_lines st a with
      | .error e => .error e
      | .ok (st1, d1) =>
        match parse_lines st1 b with
        | .error e => .error e
        | .ok (st2, d2) => .ok (st2, d1 ++ d2) := by
  induction a with
  | nil =>
    intro st
    cases h : parse_lines st b with
    | error e => simp [parse_lines, h]
    | ok p => cases p with | mk st2 d2 => simp [parse_lines, h]
  | cons l a ih =>
    intro st
    show parse_lines st (l :: (a ++ b)) = _
    cases hp : process_line st l with
    | error e => simp [parse_lines, hp]
    | ok p =>
      cases p with
      | mk st1 d1 =>
        have := ih st1
        cases ha : parse_lines st1 a with
        | error e => simp [parse_lines, hp, this, ha]
        | ok q =>
          cases q with
          | mk st2 d2 =>
            cases hb : parse_lines st2 b with
            | error e => simp [parse_lines, hp, this, ha, hb]
            | ok w => cases w with | mk st3 d3 => simp [parse_lines, hp, this, ha, hb]

/-! ## Conversion-failure lemmas (the `unwrap` aborts of the decoders) -/

/-- A digit run denoting a value outside the 32-bit range fails to parse. -/
theorem parseU32_eq_none_of_ge (s : String) (h : 2 ^ 32 ≤ digitsToNat s.toList) :
    parseU32 s = none := by
  unfold parseU32
  rw [if_neg]
  rintro ⟨-, -, hlt⟩
  omega

/-- A successful `u32` parse is below `2 ^ 32`. -/
theorem parseU32_lt_of_eq_some (s : String) (v : Nat) (h : parseU32 s = some v) :
    v < 2 ^ 32 := by
  unfold parseU32 at h
  split_ifs at h with hc
  injection h with h
  omega

/-- Entry-field conversion fails whenever one of the `u32`-typed captures
denotes a value of at least `2 ^ 32`. -/
theorem decodeEntryCaps_eq_none (c : EntryCaps)
    (h : 2 ^ 32 ≤ digitsToNat c.level.toList ∨ 2 ^ 32 ≤ digitsToNat c.fn_num.toList ∨
         2 ^ 32 ≤ digitsToNat c.mem_usage.toList ∨ 2 ^ 32 ≤ digitsToNat c.line_num.toList ∨
         2 ^ 32 ≤ digitsToNat c.arg_num.toList) :
    decodeEntryCaps c = none := by
  unfold decodeEntryCaps
  rcases h with h | h | h | h | h
  · rw [parseU32_eq_none_of_ge _ h]
  · rw [parseU32_eq_none_of_ge _ h]
    cases parseU32 c.level <;> rfl
  · rw [parseU32_eq_none_of_ge _ h]
    cases parseU32 c.level <;> cases parseU32 c.fn_num <;> rfl
  · rw [parseU32_eq_none_of_ge _ h]
    cases parseU32 c.level <;> cases parseU32 c.fn_num <;> cases parseU32 c.mem_usage <;>
      cases parseU8 c.fn_type <;> rfl
  · rw [parseU32_eq_none_of_ge _ h]
    cases parseU32 c.level <;> cases parseU32 c.fn_num <;> cases parseU32 c.mem_usage <;>
      cases parseU8 c.fn_type <;> cases parseU32 c.line_num <;> rfl

/-- Exit-field conversion fails whenever one of the `u32`-typed captures
denotes a value of at least `2 ^ 32`. -/
theorem decodeExitCaps_eq_none (c : ExitCaps)
    (h : 2 ^ 32 ≤ digitsToNat c.level.toList ∨ 2 ^ 32 ≤ digitsToNat c.fn_num.toList ∨
         2 ^ 32 ≤ digitsToNat c.mem_usage.toList) :
    decodeExitCaps c = none := by
  unfold decodeExitCaps
  rcases h with h | h | h
  · rw [parseU32_eq_none_of_ge _ h]
  · rw [parseU32_eq_none_of_ge _ h]
    cases parseU32 c.level <;> rfl
  · rw [parseU32_eq_none_of_ge _ h]
    cases parseU32 c.level <;> cases parseU32 c.fn_num <;> rfl

/-- All numeric fields of a decoded entry record fit in 32 bits. -/
theorem entryDecode_bounds (line : String) (e : XtraceEntryRecord)
    (h : entryDecode line = some e) :
    e.level < 2 ^ 32 ∧ e.fn_num < 2 ^ 32 ∧ e.mem_usage < 2 ^ 32 ∧
    e.line_num < 2 ^ 32 ∧ e.arg_num < 2 ^ 32 := by
  unfold entryDecode at h
  cases hc : entryCaptures line with
  | none => rw [hc] at h; cases h
  | some c =>
    rw [hc] at h
    simp only [Option.bind] at h
    unfold decodeEntryCaps at h
    split at h
    · injection h with h
      subst h
      rename_i h1 h2 h3 h4 h5 h6
      exact ⟨parseU32_lt_of_eq_some _ _ h1, parseU32_lt_of_eq_some _ _ h2,
             parseU32_lt_of_eq_some _ _ h3, parseU32_lt_of_eq_some _ _ h5,
             parseU32_lt_of_eq_some _ _ h6⟩
    · cases h

/-- All numeric fields of a decoded exit record fit in 32 bits. -/
theorem exitDecode_bounds (line : String) (x : XtraceExitRecord)
    (h : exitDecode line = some x) :
    x.level < 2 ^ 32 ∧ x.fn_num < 2 ^ 32 ∧ x.mem_usage < 2 ^ 32 := by
  unfold exitDecode at h
  cases hc : exitCaptures line with
  | none => rw [hc] at h; cases h
  | some c =>
    rw [hc] at h
    simp only [Option.bind] at h
    unfold decodeExitCaps at h
    split at h
    · injection h with h
      subst h
      rename_i h1 h2 h3
      exact ⟨parseU32_lt_of_eq_some _ _ h1, parseU32_lt_of_eq_some _ _ h2,
             parseU32_lt_of_eq_some _ _ h3⟩
    · cases h

/-- Stepping `parse_lines` over a successfully processed head line. -/
theorem parse_lines_cons_ok (st st' : PState) (d : List String) (l : String) (ls : List String)
    (h : process_line st l = .ok (st', d)) :
    parse_lines st (l :: ls) =
      match parse_lines st' ls with
      | .error e => .error e
      | .ok (st2, d2) => .ok (st2, d ++ d2) := by
  simp [parse_lines, h]

/-- Folding `parse_lines` over exit lines whose identifier stays pending: the
cache is never touched, so every one of them appends one completed record. -/
theorem parse_exits (e : XtraceEntryRecord) :
    ∀ (lxs : List String) (xs : List XtraceExitRecord),
      List.Forall₂ (fun l x =>
        classify l = some 4 ∧ exitDecode l = some x ∧ x.fn_num = e.fn_num) lxs xs →
      ∀ st : PState, cacheLookup st.cache e.fn_num = some e →
      parse_lines st lxs =
        .ok ({ st with run := { st.run with
                 fn_records := (st.run.fn_records ++
                   xs.map (fun x =>
                     { fn_num := x.fn_num, entry_record := some e, exit_record := some x })) } },
             []) := by
  intro lxs xs h
  induction h with
  | nil =>
    intro st hl
    simp [parse_lines]
  | @cons l x lxs2 xs2 hx hrest ih =>
    intro st hl
    obtain ⟨hc, hd, hfn⟩ := hx
    have hstep := process_line_exit_found st l x e hc hd (by rw [hfn]; exact hl)
    have ihst := ih ({ st with run := { st.run with fn_records := st.run.fn_records ++
        [{ fn_num := x.fn_num, entry_record := some e, exit_record := some x }] } }) hl
    rw [parse_lines_cons_ok _ _ _ _ _ hstep, ihst]
    simp

/-! ## Claim theorems -/

/-- Claim C5: for every raw line, classification selects the first record
kind, in the fixed declaration order Version (ToolVersion), Format
(FormatHeader), Start (StartTimestamp), FunctionEntry, FunctionExit,
Penultimate (ContinuationLine), End (EndTimestamp), whose pattern matches
the line — ties between several matching patterns are broken by that order —
and yields no match exactly when no pattern matches. -/
theorem c5_first_match_wins (s : String) :
    (∀ i : Nat, classify s = some i →
      i < 7 ∧ lineMatches i s = true ∧ ∀ j, j < i → lineMatches j s = false) ∧
    (classify s = none ↔ ∀ i, i < 7 → lineMatches i s = false) := by
  constructor
  · intro i hi
    unfold classify at hi
    split_ifs at hi with h0 h1 h2 h3 h4 h5 h6 <;>
      (injection hi with hi; subst hi) <;>
      refine ⟨by omega, by assumption, ?_⟩ <;>
      (intro j hj; interval_cases j <;> simp_all)
  · constructor
    · intro h i hi
      unfold classify at h
      split_ifs at h with h0 h1 h2 h3 h4 h5 h6
      interval_cases i <;> simp_all
    · intro hall
      have e0 := hall 0 (by omega)
      have e1 := hall 1 (by omega)
      have e2 := hall 2 (by omega)
      have e3 := hall 3 (by omega)
      have e4 := hall 4 (by omega)
      have e5 := hall 5 (by omega)
      have e6 := hall 6 (by omega)
      simp [classify, e0, e1, e2, e3, e4, e5, e6]

/-- Witness for C5 on a line matching both the Version pattern (its
`fn_name` field contains a version triple) and the FunctionEntry pattern:
the tie is broken in favour of the earlier-declared Version pattern. -/
theorem c5_witness :
    (0 < 7 ∧ lineMatches 0 "0\t1\t0\t0.001\t1000\tVersion: 1.2.3\t1\tinc\tfile\t5\t0\t" = true ∧
      ∀ j, j < 0 →
        lineMatches j "0\t1\t0\t0.001\t1000\tVersion: 1.2.3\t1\tinc\tfile\t5\t0\t" = false) ∧
    lineMatches 3 "0\t1\t0\t0.001\t1000\tVersion: 1.2.3\t1\tinc\tfile\t5\t0\t" = true :=
  ⟨(c5_first_match_wins "0\t1\t0\t0.001\t1000\tVersion: 1.2.3\t1\tinc\tfile\t5\t0\t").1 0
      (by decide),
   by decide⟩

/-- Claim C1 (amended): on an exit line whose identifier is pending, the
correlator looks the stored entry up *without removing it* — the entry stays
in the pending cache — and each exit line sharing the identifier produces one
completed `CallRecord` pairing the still-stored entry with that exit; for one
entry line followed by `k` such exit lines, parsing yields `k` records whose
entry/exit field values equal the decoded field values of the original entry
line and of the respective exit line. -/
theorem c1_correlation (le : String) (e : XtraceEntryRecord)
    (lxs : List String) (xs : List XtraceExitRecord)
    (h1 : classify le = some 3) (h2 : entryDecode le = some e)
    (h3 : List.Forall₂ (fun l x =>
      classify l = some 4 ∧ exitDecode l = some x ∧ x.fn_num = e.fn_num) lxs xs) :
    parse_lines initState (le :: lxs) =
      .ok ({ run := { start := none, format := none, version := none,
                      fn_records := xs.map (fun x =>
                        { fn_num := x.fn_num, entry_record := some e,
                          exit_record := some x }) },
             cache := [(e.fn_num, e)] }, []) := by
  have hstep : process_line initState le =
      .ok ({ run := initRun, cache := [(e.fn_num, e)] }, []) := by
    rw [process_line_entry initState le e h1 h2]
    rfl
  have hrest := parse_exits e lxs xs h3 { run := initRun, cache := [(e.fn_num, e)] }
      (by simp [cacheLookup, List.find?])
  rw [parse_lines_cons_ok _ _ _ _ _ hstep, hrest]
  simp [initRun]

/-- Witness for C1: one entry with identifier 3 followed by two exits with
identifier 3 yields two completed records, both holding the decoded entry,
and the entry is still pending afterwards. -/
theorem c1_witness :
    parse_lines initState
      ["0\t3\t0\t0.001\t500\tfoo\t1\ta.php\tb.php\t2\t0\t",
       "0\t3\t1\t0.002\t600",
       "0\t3\t1\t0.003\t700"] =
      .ok ({ run := { start := none, format := none, version := none,
                      fn_records :=
                        [{ fn_num := 3,
                           entry_record := some { level := 0, fn_num := 3, time_idx := "0.001", mem_usage := 500, fn_name := "foo", fn_type := 1, inc_file_name := "a.php", file_name := "b.php", line_num := 2, arg_num := 0, args := "" },
                           exit_record := some { level := 0, fn_num := 3, time_idx := "0.002", mem_usage := 600 } },
                         { fn_num := 3,
                           entry_record := some { level := 0, fn_num := 3, time_idx := "0.001", mem_usage := 500, fn_name := "foo", fn_type := 1, inc_file_name := "a.php", file_name := "b.php", line_num := 2, arg_num := 0, args := "" },
                           exit_record := some { level := 0, fn_num := 3, time_idx := "0.003", mem_usage := 700 } }] },
             cache := [(3, { level := 0, fn_num := 3, time_idx := "0.001", mem_usage := 500, fn_name := "foo", fn_type := 1, inc_file_name := "a.php", file_name := "b.php", line_num := 2, arg_num := 0, args := "" })] }, []) :=
  c1_correlation "0\t3\t0\t0.001\t500\tfoo\t1\ta.php\tb.php\t2\t0\t"
    { level := 0, fn_num := 3, time_idx := "0.001", mem_usage := 500, fn_name := "foo",
      fn_type := 1, inc_file_name := "a.php", file_name := "b.php", line_num := 2,
      arg_num := 0, args := "" }
    ["0\t3\t1\t0.002\t600", "0\t3\t1\t0.003\t700"]
    [{ level := 0, fn_num := 3, time_idx := "0.002", mem_usage := 600 },
     { level := 0, fn_num := 3, time_idx := "0.003", mem_usage := 700 }]
    (by decide) (by decide)
    (.cons ⟨by decide, by decide, by decide⟩ (.cons ⟨by decide, by decide, by decide⟩ .nil))

/-- Counterexample to C1 as stated: for one entry line and two exit lines
sharing identifier 3, parsing yields two `CallRecord`s with that identifier,
not exactly one, and the pending cache still holds the entry afterwards —
`HashMap::get` is used, not a removal. -/
theorem c1_counterexample :
    (parse_lines initState
      ["0\t3\t0\t0.001\t500\tfoo\t1\ta.php\tb.php\t2\t0\t",
       "0\t3\t1\t0.002\t600",
       "0\t3\t1\t0.003\t700"]).map
        (fun p => (p.1.run.fn_records.map XtraceFnRecord.fn_num, p.1.cache.length)) =
      .ok ([3, 3], 1) := by
  rfl

/-- Claim C2 evaluated on the code: on a line matching the StartTimestamp
pattern, the capture is the verbatim timestamp substring, but the decoder
ignores it and stores the hardcoded constant
"Sat Dec  3 18:01:30 PST 2022", which differs from the captured text — the
decoded `start_time` does not equal the timestamp substring of the line. -/
theorem c2_start_time_hardcoded :
    startCaptures "TRACE START [2022-12-03 18:01:30.000000]" =
      some "2022-12-03 18:01:30.000000" ∧
    parse_lines initState ["TRACE START [2022-12-03 18:01:30.000000]"] =
      .ok ({ run := { start := some { start_time := "Sat Dec  3 18:01:30 PST 2022" },
                      format := none, version := none, fn_records := [] },
             cache := [] }, []) ∧
    ("Sat Dec  3 18:01:30 PST 2022" : String) ≠ "2022-12-03 18:01:30.000000" :=
  ⟨by rfl, by rfl, by decide⟩

/-- Claim C3 (amended): a tab-delimited function-entry-shaped line whose
function-type field is a digit other than 0 or 1 does not match the
FunctionEntry pattern (the pattern restricts the field to `[01]`); since no
other pattern matches it either, it is skipped as an unclassifiable line with
a diagnostic, rather than aborting the parse with an unparseable-field error.
For type field 0 the decoded `fn_type` value is the number 0 (an internal
function) and for 1 it is the number 1 (a user function); no symbolic
Internal/User tag exists in the code. -/
theorem c3_type_field (c : Char) (hc : c ∈ ['2', '3', '4', '5', '6', '7', '8', '9']) :
    (∀ st : PState,
      classify ("0\t1\t0\t0.001\t1000\tfoo\t" ++ String.mk [c] ++
        "\tinc.php\tmain.php\t10\t0\t") = none ∧
      process_line st ("0\t1\t0\t0.001\t1000\tfoo\t" ++ String.mk [c] ++
          "\tinc.php\tmain.php\t10\t0\t") =
        .ok (st, [noMatchMsg ("0\t1\t0\t0.001\t1000\tfoo\t" ++ String.mk [c] ++
          "\tinc.php\tmain.php\t10\t0\t")])) ∧
    classify "0\t1\t0\t0.001\t1000\tfoo\t0\tinc.php\tmain.php\t10\t0\t" = some 3 ∧
    (entryDecode "0\t1\t0\t0.001\t1000\tfoo\t0\tinc.php\tmain.php\t10\t0\t").map
      XtraceEntryRecord.fn_type = some 0 ∧
    classify "0\t1\t0\t0.001\t1000\tfoo\t1\tinc.php\tmain.php\t10\t0\t" = some 3 ∧
    (entryDecode "0\t1\t0\t0.001\t1000\tfoo\t1\tinc.php\tmain.php\t10\t0\t").map
      XtraceEntryRecord.fn_type = some 1 := by
  have hnone : classify ("0\t1\t0\t0.001\t1000\tfoo\t" ++ String.mk [c] ++
      "\tinc.php\tmain.php\t10\t0\t") = none := by
    fin_cases hc <;> decide
  exact ⟨fun st => ⟨hnone, process_line_of_classify_none st _ hnone⟩,
         by decide, by decide, by decide, by decide⟩

/-- Witness for C3 at type-field digit 3. -/
theorem c3_witness :
    classify "0\t1\t0\t0.001\t1000\tfoo\t3\tinc.php\tmain.php\t10\t0\t" = none ∧
    process_line initState "0\t1\t0\t0.001\t1000\tfoo\t3\tinc.php\tmain.php\t10\t0\t" =
      .ok (initState,
        [noMatchMsg "0\t1\t0\t0.001\t1000\tfoo\t3\tinc.php\tmain.php\t10\t0\t"]) :=
  (c3_type_field '3' (by decide)).1 initState

/-- Counterexample to C3 as stated: the function-entry-shaped line with type
field 2 is processed as an unclassifiable line — state unchanged, diagnostic
emitted, no error — rather than aborting with an unparseable-field error. -/
theorem c3_counterexample :
    process_line initState "0\t1\t0\t0.001\t1000\tfoo\t2\tinc.php\tmain.php\t10\t0\t" =
      .ok (initState,
        [noMatchMsg "0\t1\t0\t0.001\t1000\tfoo\t2\tinc.php\tmain.php\t10\t0\t"]) := by
  rfl

/-- Claim C4: the format-header line naming 4 decodes into the `format`
field; a format-header line whose captured integer names any other value
makes the whole parse abort with the typed unsupported-version error — the
following lines are never processed and no `TraceFile` is returned. -/
theorem c4_format_version (pre post : List String) (line f : String) (st : PState)
    (d : List String)
    (h1 : classify line = some 1) (h2 : formatCaptures line = some f)
    (h3 : digitsToNat f.toList ≠ 4) (h4 : parse_lines initState pre = .ok (st, d)) :
    parse_lines initState ["File format: 4"] =
      .ok ({ run := { start := none, format := some { format := 4 }, version := none,
                      fn_records := [] }, cache := [] }, []) ∧
    parse_lines initState (pre ++ line :: post) =
      .error ("Unsupported version: " ++ f) ∧
    parse_xtrace_file (pre ++ line :: post) = .error ("Unsupported version: " ++ f) := by
  have hf4 : f ≠ "4" := by
    intro he
    subst he
    exact h3 (by decide)
  have hmem : f ∉ SUPPORTED_FILE_FORMATS := by
    simp [SUPPORTED_FILE_FORMATS]
    exact hf4
  have hstep : process_line st line = .error ("Unsupported version: " ++ f) := by
    simp [process_line, h1, process_idx, h2, hmem]
  have habort : parse_lines initState (pre ++ line :: post) =
      .error ("Unsupported version: " ++ f) := by
    rw [parse_lines_append, h4]
    simp [parse_lines, hstep]
  exact ⟨by rfl, habort, by rw [parse_xtrace_file, habort]; rfl⟩

/-- Witness for C4: "File format: 7" after an empty prefix aborts the parse
with the typed error, post lines notwithstanding. -/
theorem c4_witness :
    parse_lines initState ["File format: 4"] =
      .ok ({ run := { start := none, format := some { format := 4 }, version := none,
                      fn_records := [] }, cache := [] }, []) ∧
    parse_lines initState ([] ++ "File format: 7" ::
        ["0\t1\t0\t0.001\t1000\tfoo\t1\tinc.php\tmain.php\t10\t0\t"]) =
      .error ("Unsupported version: " ++ "7") ∧
    parse_xtrace_file ([] ++ "File format: 7" ::
        ["0\t1\t0\t0.001\t1000\tfoo\t1\tinc.php\tmain.php\t10\t0\t"]) =
      .error ("Unsupported version: " ++ "7") :=
  c4_format_version [] ["0\t1\t0\t0.001\t1000\tfoo\t1\tinc.php\tmain.php\t10\t0\t"]
    "File format: 7" "7" initState [] (by decide) (by decide) (by decide) (by rfl)

/-- Claim C6: completed call records are appended at the end of the sequence
in the order their exit lines are matched, not the order their entries
appeared; for the nested input entry id=1 depth=0, entry id=2 depth=1,
exit id=2, exit id=1, the result holds exactly two records, id 2 first then
id 1, with entry depths 1 and 0 respectively. -/
theorem c6_exit_order :
    (∀ (st : PState) (line : String) (x : XtraceExitRecord) (e : XtraceEntryRecord),
      classify line = some 4 → exitDecode line = some x →
      cacheLookup st.cache x.fn_num = some e →
      process_line st line =
        .ok ({ st with run := { st.run with
                 fn_records := (st.run.fn_records ++
                   [{ fn_num := x.fn_num, entry_record := some e,
                      exit_record := some x }]) } }, [])) ∧
    (parse_lines initState
        ["0\t1\t0\t0.001\t1000\tmain\t1\ta.php\tb.php\t1\t0\t",
         "1\t2\t0\t0.002\t1200\tfoo\t1\ta.php\tb.php\t2\t0\t",
         "1\t2\t1\t0.003\t1300",
         "0\t1\t1\t0.004\t1400"]).map
      (fun p => p.1.run.fn_records.map
        (fun r => (r.fn_num, r.entry_record.map XtraceEntryRecord.level))) =
      .ok [(2, some 1), (1, some 0)] :=
  ⟨process_line_exit_found, by rfl⟩

/-- Witness for C6: an exit line appends its completed record after the
records already accumulated. -/
theorem c6_witness :
    process_line
      { run := { start := none, format := none, version := none, fn_records := [] },
        cache := [(5, { level := 2, fn_num := 5, time_idx := "0.01", mem_usage := 900, fn_name := "g", fn_type := 0, inc_file_name := "i", file_name := "f", line_num := 4, arg_num := 0, args := "" })] }
      "2\t5\t1\t0.02\t950" =
      .ok ({ run := { start := none, format := none, version := none,
                      fn_records := [{ fn_num := 5, entry_record := some { level := 2, fn_num := 5, time_idx := "0.01", mem_usage := 900, fn_name := "g", fn_type := 0, inc_file_name := "i", file_name := "f", line_num := 4, arg_num := 0, args := "" }, exit_record := some { level := 2, fn_num := 5, time_idx := "0.02", mem_usage := 950 } }] },
             cache := [(5, { level := 2, fn_num := 5, time_idx := "0.01", mem_usage := 900, fn_name := "g", fn_type := 0, inc_file_name := "i", file_name := "f", line_num := 4, arg_num := 0, args := "" })] }, []) :=
  c6_exit_order.1 _ "2\t5\t1\t0.02\t950"
    { level := 2, fn_num := 5, time_idx := "0.02", mem_usage := 950 }
    { level := 2, fn_num := 5, time_idx := "0.01", mem_usage := 900, fn_name := "g", fn_type := 0, inc_file_name := "i", file_name := "f", line_num := 4, arg_num := 0, args := "" }
    (by decide) (by decide) (by rfl)

/-- Claim C7 (amended): an exit line that decodes successfully (all numeric
fields fit in 32 bits) and whose invocation identifier has no pending entry
produces zero call records, raises no error, emits no diagnostic, and leaves
the whole parse state — `TraceFile` and pending-entry cache — unchanged. -/
theorem c7_unmatched_exit (st : PState) (line : String) (x : XtraceExitRecord)
    (h1 : classify line = some 4) (h2 : exitDecode line = some x)
    (h3 : cacheLookup st.cache x.fn_num = none) :
    process_line st line = .ok (st, []) :=
  process_line_exit_missing st line x h1 h2 h3

/-- Witness for C7: exit id 5 on an empty cache is silently dropped. -/
theorem c7_witness :
    process_line initState "0\t5\t1\t0.5\t100" = .ok (initState, []) :=
  c7_unmatched_exit initState "0\t5\t1\t0.5\t100"
    { level := 0, fn_num := 5, time_idx := "0.5", mem_usage := 100 }
    (by decide) (by decide) (by rfl)

/-- Counterexample to C7 as stated ("for every input ... raises no error"):
an exit line whose identifier field reads 4294967296 — which certainly has no
pending entry — aborts the whole parse with a conversion error instead of
being silently dropped, because `fn_num` is parsed into a `u32` before the
cache lookup. -/
theorem c7_counterexample :
    classify "0\t4294967296\t1\t0.5\t100" = some 4 ∧
    parse_lines initState ["0\t4294967296\t1\t0.5\t100"] =
      .error "could not convert an exit field" :=
  ⟨by decide, by rfl⟩

/-- Claim C8: observing an entry whose invocation identifier is already
pending silently overwrites the stored entry (last write wins); a call record
subsequently produced for that identifier holds only the most recent entry's
field values. -/
theorem c8_last_write_wins (l1 l2 lx : String) (e1 e2 : XtraceEntryRecord)
    (x : XtraceExitRecord)
    (h1 : classify l1 = some 3) (h2 : entryDecode l1 = some e1)
    (h3 : classify l2 = some 3) (h4 : entryDecode l2 = some e2)
    (h5 : e1.fn_num = e2.fn_num)
    (h6 : classify lx = some 4) (h7 : exitDecode lx = some x)
    (h8 : x.fn_num = e2.fn_num) :
    parse_lines initState [l1, l2, lx] =
      .ok ({ run := { start := none, format := none, version := none,
                      fn_records := [{ fn_num := x.fn_num, entry_record := some e2,
                                       exit_record := some x }] },
             cache := [(e2.fn_num, e2)] }, []) := by
  have s1 : process_line initState l1 =
      .ok ({ run := initRun, cache := [(e1.fn_num, e1)] }, []) := by
    rw [process_line_entry initState l1 e1 h1 h2]
    rfl
  have s2 : process_line { run := initRun, cache := [(e1.fn_num, e1)] } l2 =
      .ok ({ run := initRun, cache := [(e2.fn_num, e2)] }, []) := by
    rw [process_line_entry _ l2 e2 h3 h4]
    simp [cacheInsert, h5]
  have s3 : process_line { run := initRun, cache := [(e2.fn_num, e2)] } lx =
      .ok ({ run := { start := none, format := none, version := none,
                      fn_records := [{ fn_num := x.fn_num, entry_record := some e2,
                                       exit_record := some x }] },
             cache := [(e2.fn_num, e2)] }, []) := by
    rw [process_line_exit_found _ lx x e2 h6 h7 (by simp [cacheLookup, List.find?, h8])]
    simp [initRun]
  rw [parse_lines_cons_ok _ _ _ _ _ s1, parse_lines_cons_ok _ _ _ _ _ s2,
      parse_lines_cons_ok _ _ _ _ _ s3]
  simp [parse_lines]

/-- Witness for C8: entries "foo" then "bar" under identifier 7, then exit 7:
the record holds the "bar" entry only. -/
theorem c8_witness :
    parse_lines initState
      ["0\t7\t0\t0.001\t1000\tfoo\t1\ta.php\tb.php\t3\t0\t",
       "0\t7\t0\t0.002\t2000\tbar\t0\tc.php\td.php\t4\t0\t",
       "0\t7\t1\t0.003\t2500"] =
      .ok ({ run := { start := none, format := none, version := none,
                      fn_records := [{ fn_num := 7, entry_record := some { level := 0, fn_num := 7, time_idx := "0.002", mem_usage := 2000, fn_name := "bar", fn_type := 0, inc_file_name := "c.php", file_name := "d.php", line_num := 4, arg_num := 0, args := "" }, exit_record := some { level := 0, fn_num := 7, time_idx := "0.003", mem_usage := 2500 } }] },
             cache := [(7, { level := 0, fn_num := 7, time_idx := "0.002", mem_usage := 2000, fn_name := "bar", fn_type := 0, inc_file_name := "c.php", file_name := "d.php", line_num := 4, arg_num := 0, args := "" })] }, []) :=
  c8_last_write_wins
    "0\t7\t0\t0.001\t1000\tfoo\t1\ta.php\tb.php\t3\t0\t"
    "0\t7\t0\t0.002\t2000\tbar\t0\tc.php\td.php\t4\t0\t"
    "0\t7\t1\t0.003\t2500"
    { level := 0, fn_num := 7, time_idx := "0.001", mem_usage := 1000, fn_name := "foo", fn_type := 1, inc_file_name := "a.php", file_name := "b.php", line_num := 3, arg_num := 0, args := "" }
    { level := 0, fn_num := 7, time_idx := "0.002", mem_usage := 2000, fn_name := "bar", fn_type := 0, inc_file_name := "c.php", file_name := "d.php", line_num := 4, arg_num := 0, args := "" }
    { level := 0, fn_num := 7, time_idx := "0.003", mem_usage := 2500 }
    (by decide) (by decide) (by decide) (by decide) (by decide) (by decide) (by decide)
    (by decide)

/-- Claim C9: a line matching none of the seven patterns is reported with the
diagnostic of the source and skipped with the state unchanged, and the
resulting state — in particular the `TraceFile` — equals the one produced by
the same input with that line absent. -/
theorem c9_skip (s : String) (h : classify s = none) :
    (∀ st : PState, process_line st s = .ok (st, [noMatchMsg s])) ∧
    (∀ (st : PState) (pre post : List String),
      (parse_lines st (pre ++ s :: post)).map Prod.fst =
      (parse_lines st (pre ++ post)).map Prod.fst) := by
  refine ⟨fun st => process_line_of_classify_none st s h, ?_⟩
  intro st pre post
  rw [parse_lines_append pre (s :: post) st, parse_lines_append pre post st]
  cases hpre : parse_lines st pre with
  | error e => rfl
  | ok p =>
    cases p with
    | mk st1 d1 =>
      dsimp only
      rw [parse_lines_cons_ok st1 st1 [noMatchMsg s] s post
          (process_line_of_classify_none st1 s h)]
      cases hpost : parse_lines st1 post with
      | error e => rfl
      | ok q => cases q with | mk st2 d2 => rfl

/-- Witness for C9 on the spec's "garbage line with no structure". -/
theorem c9_witness :
    process_line initState "garbage line with no structure" =
      .ok (initState, [noMatchMsg "garbage line with no structure"]) ∧
    (parse_lines initState (["File format: 4"] ++ "garbage line with no structure" ::
        ["0\t1\t0\t0.001\t1000\tfoo\t1\ta\tb\t1\t0\t"])).map Prod.fst =
    (parse_lines initState (["File format: 4"] ++
        ["0\t1\t0\t0.001\t1000\tfoo\t1\ta\tb\t1\t0\t"])).map Prod.fst :=
  ⟨(c9_skip "garbage line with no structure" (by decide)).1 initState,
   (c9_skip "garbage line with no structure" (by decide)).2 initState
     ["File format: 4"] ["0\t1\t0\t0.001\t1000\tfoo\t1\ta\tb\t1\t0\t"]⟩

/-- Claim C10: the numeric fields of entry and exit records (depth,
invocation identifier, memory usage, source line, argument count) are decoded
as 32-bit unsigned integers: any matched entry or exit line in which such a
field's digit sequence denotes a value of at least `2 ^ 32` makes the parse
abort instead of producing a wrapped or truncated record, and every decoded
record's numeric fields are below `2 ^ 32`. -/
theorem c10_u32_fields :
    (∀ (st : PState) (line : String) (c : EntryCaps),
      classify line = some 3 → entryCaptures line = some c →
      (2 ^ 32 ≤ digitsToNat c.level.toList ∨ 2 ^ 32 ≤ digitsToNat c.fn_num.toList ∨
       2 ^ 32 ≤ digitsToNat c.mem_usage.toList ∨ 2 ^ 32 ≤ digitsToNat c.line_num.toList ∨
       2 ^ 32 ≤ digitsToNat c.arg_num.toList) →
      process_line st line = .error "could not convert an entry field") ∧
    (∀ (st : PState) (line : String) (c : ExitCaps),
      classify line = some 4 → exitCaptures line = some c →
      (2 ^ 32 ≤ digitsToNat c.level.toList ∨ 2 ^ 32 ≤ digitsToNat c.fn_num.toList ∨
       2 ^ 32 ≤ digitsToNat c.mem_usage.toList) →
      process_line st line = .error "could not convert an exit field") ∧
    (∀ (line : String) (e : XtraceEntryRecord), entryDecode line = some e →
      e.level < 2 ^ 32 ∧ e.fn_num < 2 ^ 32 ∧ e.mem_usage < 2 ^ 32 ∧
      e.line_num < 2 ^ 32 ∧ e.arg_num < 2 ^ 32) ∧
    (∀ (line : String) (x : XtraceExitRecord), exitDecode line = some x →
      x.level < 2 ^ 32 ∧ x.fn_num < 2 ^ 32 ∧ x.mem_usage < 2 ^ 32) := by
  refine ⟨?_, ?_, entryDecode_bounds, exitDecode_bounds⟩
  · intro st line c hcl hcap hov
    have hdec : entryDecode line = none := by
      unfold entryDecode
      rw [hcap]
      simpa using decodeEntryCaps_eq_none c hov
    simp [process_line, hcl, process_idx, hdec]
  · intro st line c hcl hcap hov
    have hdec : exitDecode line = none := by
      unfold exitDecode
      rw [hcap]
      simpa using decodeExitCaps_eq_none c hov
    simp [process_line, hcl, process_idx, hdec]

/-- Witness for C10: an entry line whose memory field reads 4294967296
aborts the parse. -/
theorem c10_witness :
    process_line initState "0\t1\t0\t0.1\t4294967296\tfoo\t1\ta\tb\t1\t0\t" =
      .error "could not convert an entry field" :=
  c10_u32_fields.1 initState "0\t1\t0\t0.1\t4294967296\tfoo\t1\ta\tb\t1\t0\t"
    { level := "0", fn_num := "1", time_idx := "0.1", mem_usage := "4294967296", fn_name := "foo", fn_type := "1", inc_file_name := "a", file_name := "b", line_num := "1", arg_num := "0", args := "" }
    (by decide) (by decide) (Or.inr (Or.inr (Or.inl (by decide))))
